import Mathlib

/-!
Verification development for the `TPCUtils` unified-plan helper of the
lib-jitsi-meet RTC layer (src/service/RTC/VideoType.js together with
src/service/RTC/MediaType.js).

The JavaScript class is shallowly embedded: the peer connection, the
transceivers and the local tracks become explicit Lean structures, the
class methods become pure functions on those structures, and the
promise-based results become an explicit `OpResult` type distinguishing
a synchronously thrown exception from a rejected promise and from a
resolved one.  SDP descriptions are modelled by their parsed structural
view (the `parse`/`write` round trip of the sdp-transform library is the
identity on that view).  JavaScript numbers that only ever hold small
integers are modelled by `Nat`; the scale factors (4.0, 2.0, 1.0) and
the height divisions, which are exact in binary floating point for the
integer heights involved, are modelled by `ℚ`.
-/

/-- Media type string constants, from src/service/RTC/MediaType.js. -/
def MediaType.AUDIO : String := "audio"

/-- Media type string constant for video, from src/service/RTC/MediaType.js. -/
def MediaType.VIDEO : String := "video"

/-- Video type string constant for camera tracks, from src/service/RTC/VideoType.js. -/
def VideoType.CAMERA : String := "camera"

/-- Video type string constant for desktop tracks, from src/service/RTC/VideoType.js. -/
def VideoType.DESKTOP : String := "desktop"

/-- Modelled from the spec: direction state of a transceiver.  The MediaDirection
module is not among the provided source files; the spec lists the states
sendrecv, recvonly, inactive and stopped. -/
def MediaDirection.SENDRECV : String := "sendrecv"

/-- Modelled from the spec: the receive-only transceiver direction. -/
def MediaDirection.RECVONLY : String := "recvonly"

/-- Modelled from the spec: the inactive transceiver direction. -/
def MediaDirection.INACTIVE : String := "inactive"

/-- Modelled from the spec: the terminal stopped transceiver direction. -/
def MediaDirection.STOPPED : String := "stopped"

/-- Rid of the first simulcast layer (SIM_LAYER_1_RID). -/
def SIM_LAYER_1_RID : String := "1"

/-- Rid of the second simulcast layer (SIM_LAYER_2_RID). -/
def SIM_LAYER_2_RID : String := "2"

/-- Rid of the third simulcast layer (SIM_LAYER_3_RID). -/
def SIM_LAYER_3_RID : String := "3"

/-- The list of simulcast rids (SIM_LAYER_RIDS). -/
def SIM_LAYER_RIDS : List String := [SIM_LAYER_1_RID, SIM_LAYER_2_RID, SIM_LAYER_3_RID]

/-- Modelled from the spec: the scale factor of the lowest-resolution simulcast
layer (LD_SCALE_FACTOR, imported by the source from a constants module that is
not among the provided files; the spec identifies it as 4.0). -/
def LD_SCALE_FACTOR : ℚ := 4

/-- Modelled from the spec: the scale factor of the highest-resolution simulcast
layer (HD_SCALE_FACTOR; the spec identifies the high-definition reference
factor as 1.0). -/
def HD_SCALE_FACTOR : ℚ := 1

/-- Modelled from the spec: the flat presenter-mode bitrate (HD_BITRATE); the
source comment fixes it at 2500 Kbps. -/
def HD_BITRATE : Nat := 2500000

/-- Modelled from the spec: the default desktop share bitrate
(DESKTOP_SHARE_RATE); the source comment fixes it at 500 Kbps. -/
def DESKTOP_SHARE_RATE : Nat := 500000

/-- Result of one of the promise-returning class methods: a synchronous
JavaScript exception, a rejected promise, or a resolved promise. -/
inductive OpResult (α : Type) where
  | thrown (msg : String)
  | rejected (msg : String)
  | resolved (a : α)
deriving DecidableEq, Repr

/-- Whether the operation escaped with a synchronous exception. -/
def OpResult.isThrown : OpResult α → Bool
  | .thrown _ => true
  | _ => false

/-! ### The structural view of a session description (sdp-transform) -/

/-- One `a=ssrc-group` attribute of a media section: a semantics tag and the
raw space-separated ssrc id string, as parsed by sdp-transform. -/
structure SsrcGroup where
  semantics : String
  ssrcs : String
deriving DecidableEq, Repr

/-- One `a=ssrc` attribute line of a media section.  sdp-transform parses the
ssrc id as a number; `attrName`/`value` stand for its `attribute`/`value`
fields (payload irrelevant to the reordering). -/
structure SsrcEntry where
  id : Nat
  attrName : String
  value : Option String
deriving DecidableEq, Repr

/-- One `a=rid` attribute entry of a media section. -/
structure RidEntry where
  id : String
  direction : String
deriving DecidableEq, Repr

/-- The parsed `a=simulcast:` (version 03) attribute. -/
structure Simulcast03 where
  value : String
deriving DecidableEq, Repr

/-- One media section of a parsed session description.  `rids`, `simulcast`
and `simulcast_03` are `none` when the attribute is absent (undefined). -/
structure MLine where
  type : String
  ssrcGroups : List SsrcGroup
  ssrcs : List SsrcEntry
  rids : Option (List RidEntry)
  simulcast : Option String
  simulcast_03 : Option Simulcast03
deriving DecidableEq, Repr

/-- A session description in its parsed structural view. -/
structure SessionDesc where
  type : String
  media : List MLine
deriving DecidableEq, Repr

/-! ### ensureCorrectOrderOfSsrcs -/

/-- Splitting of a character list at every occurrence of the separator,
keeping empty components, like the JavaScript single-character `split`. -/
def splitCharsOn (sep : Char) : List Char → List (List Char)
  | [] => [[]]
  | c :: cs =>
    let rest := splitCharsOn sep cs
    if c = sep then [] :: rest
    else
      match rest with
      | [] => [[c]]
      | r :: rs => (c :: r) :: rs

/-- Splitting of a string at a single-character separator (the JavaScript
`split`). -/
def jsSplit (sep : Char) (s : String) : List String :=
  (splitCharsOn sep s.data).map (fun cs => String.mk cs)

/-- Splitting of a group's ssrcs field: `group.ssrcs.split(' ').filter(Boolean)`. -/
def splitSsrcs (s : String) : List String :=
  (jsSplit ' ' s).filter (fun x => !(x == ""))

/-- Accumulator loop behind `insertionDedup`: `seen` is the set built so far. -/
def insertionDedupAux (seen : List String) : List String → List String
  | [] => []
  | x :: xs =>
    if x ∈ seen then insertionDedupAux seen xs
    else x :: insertionDedupAux (seen ++ [x]) xs

/-- Insertion-ordered deduplication: the JavaScript `Set` accumulated by
`ensureCorrectOrderOfSsrcs` keeps the first occurrence of each element and
preserves insertion order. -/
def insertionDedup (l : List String) : List String :=
  insertionDedupAux [] l

/-- The ssrc ids referenced by the ssrc-groups of a media section, in order
of appearance, duplicates kept. -/
def groupRefs (groups : List SsrcGroup) : List String :=
  groups.flatMap (fun g => splitSsrcs g.ssrcs)

/-- The deduplicated, insertion-ordered list of ssrc ids referenced by the
ssrc-groups of a media section. -/
def collectGroupSsrcs (groups : List SsrcGroup) : List String :=
  insertionDedup (groupRefs groups)

/-- The rebuilt ssrc list: for each collected id in order, every ssrc entry
whose id prints to that string (`source.id.toString() === ssrc`). -/
def reorderSsrcs (groups : List SsrcGroup) (sources : List SsrcEntry) : List SsrcEntry :=
  (collectGroupSsrcs groups).flatMap
    (fun ssrc => sources.filter (fun source => Nat.repr source.id == ssrc))

/-- The per-media-section body of `ensureCorrectOrderOfSsrcs`: audio sections
and sections without ssrc-groups are returned unchanged, any other section
gets its ssrc list rebuilt. -/
def ensureMLine (m : MLine) : MLine :=
  if m.type == "audio" then m
  else if m.ssrcGroups.isEmpty then m
  else { m with ssrcs := reorderSsrcs m.ssrcGroups m.ssrcs }

/-- TPCUtils.ensureCorrectOrderOfSsrcs on the structural view of the
description (parse and write are the identity on this view; the returned
RTCSessionDescription keeps the type and carries the rewritten sdp). -/
def ensureCorrectOrderOfSsrcs (description : SessionDesc) : SessionDesc :=
  { type := description.type, media := description.media.map ensureMLine }

/-! ### insertUnifiedPlanSimulcastReceive -/

/-- Browser predicates consumed by TPCUtils.  Modelled from the spec: the
browser module is an external collaborator exposing named boolean/version
queries. -/
structure Browser where
  isFirefox : Bool
  isWebKitBased : Bool
  isChromiumBased : Bool
  isReactNative : Bool
  usesSdpMungingForSimulcast : Bool
  version : Nat
deriving DecidableEq, Repr

/-- The feature-flag environment of the class (FeatureFlags module). -/
structure Env where
  browser : Browser
  isMultiStreamSupportEnabled : Bool
deriving DecidableEq, Repr

/-- Clearing of rid/simulcast attributes from every video section other than
the one at `idx` (the branch taken when the first video section already
advertises rid and simulcast attributes). -/
def stripOtherVideoSections (media : List MLine) (idx : Nat) : List MLine :=
  media.enum.map (fun p =>
    if p.2.type == "video" && !(p.1 == idx)
    then { p.2 with rids := none, simulcast := none, simulcast_03 := none }
    else p.2)

/-- The simulcast attribute value: Firefox 72 and later dropped the legacy
`rid=` prefix. -/
def simulcastLineFor (b : Browser) : String :=
  if b.isFirefox && decide (71 < b.version)
  then "recv " ++ String.intercalate ";" SIM_LAYER_RIDS
  else "recv rid=" ++ String.intercalate ";" SIM_LAYER_RIDS

/-- TPCUtils.insertUnifiedPlanSimulcastReceive.  When the description holds no
video section, `findIndex` returns -1 and the subsequent member access throws;
this is modelled by `OpResult.thrown`. -/
def insertUnifiedPlanSimulcastReceive (env : Env) (desc : SessionDesc) :
    OpResult SessionDesc :=
  if env.browser.usesSdpMungingForSimulcast then .resolved desc
  else
    match desc.media.findIdx? (fun mline => mline.type == "video") with
    | none => .thrown "TypeError: Cannot read properties of undefined"
    | some idx =>
      match desc.media.get? idx with
      | none => .thrown "TypeError: Cannot read properties of undefined"
      | some m =>
        if m.rids.isSome && (m.simulcast_03.isSome || m.simulcast.isSome) then
          .resolved { type := desc.type, media := stripOtherVideoSections desc.media idx }
        else
          .resolved
            { type := desc.type,
              media := desc.media.set idx
                { m with
                  rids := some
                    [ { id := SIM_LAYER_1_RID, direction := "recv" },
                      { id := SIM_LAYER_2_RID, direction := "recv" },
                      { id := SIM_LAYER_3_RID, direction := "recv" } ],
                  simulcast_03 := some { value := simulcastLineFor env.browser } } }

/-! ### Tracks, transceivers and the peer connection state -/

/-- A platform media stream track (`MediaStreamTrack`): its id and kind.  Per
the WebRTC platform, distinct track objects carry distinct ids, so object
identity is modelled by id equality. -/
structure MediaStreamTrack where
  id : String
  kind : String
deriving DecidableEq, Repr

/-- A platform media stream, identified by its id. -/
structure MediaStream where
  id : String
deriving DecidableEq, Repr

/-- The simulcast encoding parameters of one layer.  The optional fields are
absent (`none`) on the reduced single-layer configurations. -/
structure Encoding where
  active : Bool
  maxBitrate : Option Nat := none
  rid : Option String := none
  scaleResolutionDownBy : Option ℚ := none
deriving DecidableEq, Repr

/-- The sender parameter set read and written by `setEncodings`. -/
structure SenderParameters where
  encodings : List Encoding
deriving DecidableEq, Repr

/-- An RTCRtpTransceiver as far as TPCUtils reads and writes it.  Per the
WebRTC platform a transceiver's receiver always carries a (possibly never
started) track, so `receiverTrack` is total, while the sender's track may be
null.  `currentDirection` is null until negotiation completes. -/
structure Transceiver where
  receiverTrack : MediaStreamTrack
  senderTrack : Option MediaStreamTrack
  senderParameters : SenderParameters
  direction : String
  currentDirection : Option String
deriving DecidableEq, Repr

/-- A JitsiLocalTrack as far as TPCUtils reads it: `getType`, `getVideoType`,
`getTrack`, `getOriginalStream` (also `_originalStream`), `getStreamId`,
`isMuted`, `getSourceName`, `getSettings().height`, `rtcId`, and whether the
track is already bound to a conference. -/
structure JitsiLocalTrack where
  rtcId : Nat
  mediaType : String
  videoType : Option String
  track : MediaStreamTrack
  originalStream : Option MediaStream
  streamId : String
  muted : Bool
  sourceName : Option String
  height : Nat
  hasConference : Bool
deriving DecidableEq, Repr

/-- Whether the track is a video track (`isVideoTrack`). -/
def JitsiLocalTrack.isVideoTrack (lt : JitsiLocalTrack) : Bool :=
  lt.mediaType == MediaType.VIDEO

/-- The mutable state of the TraceablePeerConnection that TPCUtils touches:
the transceiver collection, the `localTracks` map, the streams added via
`addStream`, plus the connection-level predicates (`isSimulcastOn`,
`isSharingLowFpsScreen`, `usesUnifiedPlan`) and the configured
`options.videoQuality.desktopBitrate`. -/
structure PCState where
  transceivers : List Transceiver
  localTracks : List (Nat × JitsiLocalTrack)
  addedStreams : List MediaStream
  isSimulcastOn : Bool
  isSharingLowFpsScreen : Bool
  usesUnifiedPlan : Bool
  desktopBitrateOption : Option Nat
deriving DecidableEq, Repr

/-- The videoBitrates configuration handed to the TPCUtils constructor. -/
structure VideoBitrates where
  low : Nat
  standard : Nat
  high : Nat
deriving DecidableEq, Repr

/-- The startup stream encoding configuration built in the TPCUtils
constructor (`localStreamEncodingsConfig`). -/
def localStreamEncodingsConfig (isFirefox : Bool) (videoBitrates : VideoBitrates) :
    List Encoding :=
  [ { active := true,
      maxBitrate := some (if isFirefox then videoBitrates.high else videoBitrates.low),
      rid := some SIM_LAYER_1_RID,
      scaleResolutionDownBy := some (if isFirefox then 1 else 4) },
    { active := true,
      maxBitrate := some videoBitrates.standard,
      rid := some SIM_LAYER_2_RID,
      scaleResolutionDownBy := some 2 },
    { active := true,
      maxBitrate := some (if isFirefox then videoBitrates.low else videoBitrates.high),
      rid := some SIM_LAYER_3_RID,
      scaleResolutionDownBy := some (if isFirefox then 4 else 1) } ]

/-- TPCUtils._getStreamEncodings. -/
def _getStreamEncodings (env : Env) (videoBitrates : VideoBitrates) (st : PCState)
    (localTrack : JitsiLocalTrack) : List Encoding :=
  if st.isSimulcastOn && localTrack.isVideoTrack then
    localStreamEncodingsConfig env.browser.isFirefox videoBitrates
  else if localTrack.isVideoTrack then
    [{ active := true, maxBitrate := some videoBitrates.high }]
  else
    [{ active := true }]

/-- Replacement of the first transceiver satisfying `p` (the one returned by
the JavaScript `find`) by its image under `f`. -/
def updateFirst (p : Transceiver → Bool) (f : Transceiver → Transceiver) :
    List Transceiver → List Transceiver
  | [] => []
  | t :: ts => if p t then f t :: ts else t :: updateFirst p f ts

/-- The `Map.set` of the `localTracks` map: overwrite the entry with the given
key if present, append otherwise. -/
def mapSet (m : List (Nat × JitsiLocalTrack)) (k : Nat) (v : JitsiLocalTrack) :
    List (Nat × JitsiLocalTrack) :=
  if m.any (fun p => p.1 == k) then
    m.map (fun p => if p.1 == k then (k, v) else p)
  else m ++ [(k, v)]

/-- Number of entries `getLocalTracks(mediaType)` returns, derived from the
`localTracks` map (the method filters the map's values by media type). -/
def getLocalTracksCount (st : PCState) (mediaType : Option String) : Nat :=
  (st.localTracks.filter (fun p => some p.2.mediaType == mediaType)).length

/-! ### addTrack -/

/-- The init dictionary passed to `addTransceiver` in the initiator branch of
`addTrack`. -/
structure TransceiverInit where
  direction : String
  streams : List (Option MediaStream)
  sendEncodings : List Encoding
deriving DecidableEq, Repr

/-- The call `addTrack` issues on the underlying peer connection: either
`addTransceiver(track, init)` (initiator) or plain `addTrack(track)`
(responder). -/
inductive AddTrackAction where
  | addTransceiver (track : MediaStreamTrack) (init : TransceiverInit)
  | addTrackPlain (track : MediaStreamTrack)
deriving DecidableEq, Repr

/-- TPCUtils.addTrack: the initiator path creates a sendrecv transceiver
carrying the track's original stream and, except on Firefox, the initial
stream encodings; the responder path calls the plain attach primitive. -/
def addTrack (env : Env) (videoBitrates : VideoBitrates) (st : PCState)
    (localTrack : JitsiLocalTrack) (isInitiator : Bool) : AddTrackAction :=
  if isInitiator then
    .addTransceiver localTrack.track
      { direction := "sendrecv",
        streams := [localTrack.originalStream],
        sendEncodings :=
          if !env.browser.isFirefox then _getStreamEncodings env videoBitrates st localTrack
          else [] }
  else
    .addTrackPlain localTrack.track

/-! ### setEncodings, addTrackUnmute, removeTrackMute -/

/-- Predicate of the `find` in `setEncodings`: the transceiver's sender
carries a track of the same kind as the given track. -/
def senderKindPred (mediaType : String) (t : Transceiver) : Bool :=
  match t.senderTrack with
  | some s => s.kind == mediaType
  | none => false

/-- TPCUtils.setEncodings.  The source has no guard on the `find` result: when
no transceiver's sender carries a track of the right kind, the member access
`transceiver.sender` throws a TypeError synchronously, modelled by
`OpResult.thrown`.  Otherwise the sender's parameters are re-committed with
only the `encodings` field replaced. -/
def setEncodings (env : Env) (videoBitrates : VideoBitrates) (st : PCState)
    (track : JitsiLocalTrack) : OpResult Unit × PCState :=
  match st.transceivers.find? (senderKindPred track.mediaType) with
  | none => (.thrown "TypeError: Cannot read properties of undefined", st)
  | some _ =>
    (.resolved (),
     { st with
         transceivers := updateFirst (senderKindPred track.mediaType)
           (fun t => { t with senderParameters :=
             { t.senderParameters with
                 encodings := _getStreamEncodings env videoBitrates st track } })
           st.transceivers })

/-- Predicate of the `find` in `addTrackUnmute` (and `setMediaTransferActive`):
the transceiver's receiver track has the wanted kind. -/
def receiverKindPred (mediaType : String) (t : Transceiver) : Bool :=
  t.receiverTrack.kind == mediaType

/-- TPCUtils.addTrackUnmute.  Rejects when no transceiver of the track's media
type exists.  On a recvonly transceiver with an original stream the stream is
added, the encodings applied, the track recorded and the transceiver promoted
to sendrecv (a synchronous throw out of the inner `setEncodings` call
propagates); on a recvonly transceiver without a stream it resolves with no
state change; otherwise the sender's track is replaced. -/
def addTrackUnmute (env : Env) (videoBitrates : VideoBitrates) (st : PCState)
    (localTrack : JitsiLocalTrack) : OpResult Unit × PCState :=
  let mediaType := localTrack.mediaType
  match st.transceivers.find? (receiverKindPred mediaType) with
  | none =>
    (.rejected ("RTCRtpTransceiver for " ++ mediaType ++ " not found"), st)
  | some transceiver =>
    if transceiver.direction == "recvonly" then
      match localTrack.originalStream with
      | some stream =>
        let st1 := { st with addedStreams := st.addedStreams ++ [stream] }
        match setEncodings env videoBitrates st1 localTrack with
        | (.resolved _, st2) =>
          (.resolved (),
           { st2 with
               localTracks := mapSet st2.localTracks localTrack.rtcId localTrack,
               transceivers := updateFirst (receiverKindPred mediaType)
                 (fun t => { t with direction := "sendrecv" }) st2.transceivers })
        | (.thrown msg, st2) => (.thrown msg, st2)
        | (.rejected msg, st2) => (.rejected msg, st2)
      | none => (.resolved (), st)
    else
      (.resolved (),
       { st with
           transceivers := updateFirst (receiverKindPred mediaType)
             (fun t => { t with senderTrack := some localTrack.track })
             st.transceivers })

/-- Predicate of the `find` in `removeTrackMute`: the transceiver's sender
carries exactly the given track id (`getTrackId` returns the id of the
underlying platform track). -/
def senderTrackIdPred (trackId : String) (t : Transceiver) : Bool :=
  match t.senderTrack with
  | some s => s.id == trackId
  | none => false

/-- TPCUtils.removeTrackMute: rejects when no sender carries the track,
otherwise substitutes a null track on that sender. -/
def removeTrackMute (st : PCState) (localTrack : JitsiLocalTrack) :
    OpResult Unit × PCState :=
  match st.transceivers.find? (senderTrackIdPred localTrack.track.id) with
  | none =>
    (.rejected ("RTCRtpTransceiver for " ++ localTrack.mediaType ++ " not found"), st)
  | some _ =>
    (.resolved (),
     { st with
         transceivers := updateFirst (senderTrackIdPred localTrack.track.id)
           (fun t => { t with senderTrack := none }) st.transceivers })

/-! ### replaceTrack -/

/-- JavaScript truthiness of an optional string (undefined and the empty
string are falsy). -/
def truthyStr : Option String → Bool
  | some s => !(s == "")
  | none => false

/-- The media type consulted by `replaceTrack`:
`newTrack?.getType() ? newTrack?.getType() : oldTrack?.getType()`. -/
def replaceTrackMediaType (oldTrack newTrack : Option JitsiLocalTrack) : Option String :=
  match newTrack with
  | some nt => some nt.mediaType
  | none => oldTrack.map (fun ot => ot.mediaType)

/-- Predicate of the multi-stream `find` in `replaceTrack`: matching receiver
kind, direction recvonly and negotiated direction inactive. -/
def newSourcePred (mediaType : Option String) (t : Transceiver) : Bool :=
  some t.receiverTrack.kind == mediaType
    && t.direction == MediaDirection.RECVONLY
    && t.currentDirection == some MediaDirection.INACTIVE

/-- Predicate of the fallback `find` in `replaceTrack`: matching receiver
kind. -/
def kindOnlyPred (mediaType : Option String) (t : Transceiver) : Bool :=
  some t.receiverTrack.kind == mediaType

/-- The source name consulted by the mute/unmute branch of `replaceTrack`:
`newTrack?.getSourceName() ? newTrack?.getSourceName() : oldTrack?.getSourceName()`. -/
def consultedSourceName (oldTrack newTrack : Option JitsiLocalTrack) : Option String :=
  if truthyStr (newTrack.bind (fun nt => nt.sourceName)) then
    newTrack.bind (fun nt => nt.sourceName)
  else oldTrack.bind (fun ot => ot.sourceName)

/-- Value of a decimal digit character, `none` on any other character. -/
def digitVal? (c : Char) : Option Nat :=
  if decide ('0' ≤ c) && decide (c ≤ '9') then some (c.toNat - '0'.toNat) else none

/-- Parse of a non-empty all-digit character list as a natural number.  The
JavaScript `Number` yields NaN on a non-numeric string and 0 on the empty
string; both are falsy where the parse result is consumed, so both are
collapsed to `none`. -/
def parseNatChars (cs : List Char) : Option Nat :=
  if cs.isEmpty then none
  else
    cs.foldl
      (fun acc c =>
        match acc, digitVal? c with
        | some a, some d => some (a * 10 + d)
        | _, _ => none)
      (some 0)

/-- The transceiver-selection logic of TPCUtils.replaceTrack, producing the
transceiver the sender substitution will run on (`none` when the lookup comes
up empty).  The index parse `Number(sourceName.split('-')[1].substring(1))`
throws a TypeError when the source name holds no `-` (the split has a single
component and the indexing yields undefined); a parse yielding NaN, or the
index 0, is falsy, so the indexed selection is skipped. -/
def replaceTrackSelect (env : Env) (st : PCState)
    (oldTrack newTrack : Option JitsiLocalTrack) : OpResult (Option Transceiver) :=
  let mediaType := replaceTrackMediaType oldTrack newTrack
  let isNewLocalSource :=
    env.isMultiStreamSupportEnabled
      && !(getLocalTracksCount st mediaType == 0)
      && oldTrack.isNone
      && newTrack.isSome
      && !(match newTrack with | some nt => nt.hasConference | none => false)
  match oldTrack with
  | some ot =>
    if !ot.muted then
      .resolved (st.transceivers.find? (fun t => t.senderTrack == some ot.track))
    else
      replaceTrackSelectFallback st oldTrack newTrack mediaType isNewLocalSource
  | none =>
    replaceTrackSelectFallback st oldTrack newTrack mediaType isNewLocalSource
where
  /-- The two branches taken when there is no unmuted old track. -/
  replaceTrackSelectFallback (st : PCState)
      (oldTrack newTrack : Option JitsiLocalTrack)
      (mediaType : Option String) (isNewLocalSource : Bool) :
      OpResult (Option Transceiver) :=
    if isNewLocalSource then
      .resolved (st.transceivers.find? (newSourcePred mediaType))
    else
      let first := st.transceivers.find? (kindOnlyPred mediaType)
      let sourceName := consultedSourceName oldTrack newTrack
      if truthyStr sourceName then
        match (jsSplit '-' (sourceName.getD "")).get? 1 with
        | none => .thrown "TypeError: Cannot read properties of undefined"
        | some component =>
          match parseNatChars (component.data.drop 1) with
          | some n =>
            if !(n == 0) then
              .resolved ((st.transceivers.filter
                (fun t => kindOnlyPred mediaType t
                  && !(t.direction == MediaDirection.RECVONLY))).get? n)
            else .resolved first
          | none => .resolved first
      else .resolved first

/-- TPCUtils.replaceTrack: rejects with "replace track failed" when the
selection comes up empty, otherwise resolves with the selected transceiver
after the sender-side track substitution (an effect of the external sender
object). -/
def replaceTrack (env : Env) (st : PCState)
    (oldTrack newTrack : Option JitsiLocalTrack) : OpResult Transceiver :=
  match replaceTrackSelect env st oldTrack newTrack with
  | .thrown msg => .thrown msg
  | .rejected msg => .rejected msg
  | .resolved none => .rejected "replace track failed"
  | .resolved (some t) => .resolved t

/-! ### calculateEncodingsActiveState and calculateEncodingsBitrates -/

/-- TPCUtils.calculateEncodingsActiveState.  The heights are exact in the
source's floating point arithmetic and are modelled in `ℚ`; a division by an
absent scale factor is NaN in JavaScript, whose comparisons are all false,
modelled by the `none` case. -/
def calculateEncodingsActiveState (env : Env) (videoBitrates : VideoBitrates)
    (st : PCState) (localVideoTrack : JitsiLocalTrack) (newHeight : Nat) :
    List Bool :=
  let cfg := localStreamEncodingsConfig env.browser.isFirefox videoBitrates
  let frameHeights :=
    cfg.map (fun e => e.scaleResolutionDownBy.map
      (fun s => (localVideoTrack.height : ℚ) / s))
  frameHeights.enum.map (fun p =>
    let idx := p.1
    let active : Bool :=
      if localVideoTrack.videoType == some VideoType.CAMERA then
        if decide (0 < newHeight)
            && ((cfg.get? idx).bind (fun e => e.scaleResolutionDownBy)
                  == some LD_SCALE_FACTOR) then
          true
        else
          match p.2 with
          | some frameHeight => decide (frameHeight ≤ (newHeight : ℚ))
          | none => false
      else true
    if st.isSharingLowFpsScreen
        && localVideoTrack.videoType == some VideoType.DESKTOP
        && st.usesUnifiedPlan
        && !env.browser.isWebKitBased
        && !((cfg.get? idx).bind (fun e => e.scaleResolutionDownBy)
              == some HD_SCALE_FACTOR) then
      false
    else active)

/-- The presenter-overlay predicate of `calculateEncodingsBitrates`: the
track's `_originalStream` exists and its id differs from the track's current
stream id. -/
def presenterEnabled (localVideoTrack : JitsiLocalTrack) : Bool :=
  match localVideoTrack.originalStream with
  | some stream => !(stream.id == localVideoTrack.streamId)
  | none => false

/-- The effective low-fps desktop rate of `calculateEncodingsBitrates`:
`this.pc.options?.videoQuality?.desktopBitrate || DESKTOP_SHARE_RATE` (a
configured 0 is falsy and falls back to the default). -/
def desktopShareBitrate (st : PCState) : Nat :=
  match st.desktopBitrateOption with
  | some b => if !(b == 0) then b else DESKTOP_SHARE_RATE
  | none => DESKTOP_SHARE_RATE

/-- TPCUtils.calculateEncodingsBitrates.  The result entry is `none` where the
source clears the bitrate to undefined. -/
def calculateEncodingsBitrates (env : Env) (videoBitrates : VideoBitrates)
    (st : PCState) (localVideoTrack : JitsiLocalTrack) : List (Option Nat) :=
  let videoType := localVideoTrack.videoType
  (localStreamEncodingsConfig env.browser.isFirefox videoBitrates).map
    (fun encoding =>
      if st.isSharingLowFpsScreen && !env.browser.isWebKitBased then
        if presenterEnabled localVideoTrack then some HD_BITRATE
        else some (desktopShareBitrate st)
      else if videoType == some VideoType.DESKTOP
          && env.browser.isChromiumBased && !st.usesUnifiedPlan then
        none
      else encoding.maxBitrate)

/-! ### Concrete fixtures used by the witnesses and counterexamples -/

/-- A videoBitrates configuration with distinct low/standard/high rates. -/
def vb0 : VideoBitrates := { low := 200000, standard := 500000, high := 1500000 }

/-- A Chromium-like browser: not Firefox, not WebKit-based, no SDP munging. -/
def browser0 : Browser :=
  { isFirefox := false, isWebKitBased := false, isChromiumBased := true,
    isReactNative := false, usesSdpMungingForSimulcast := false, version := 96 }

/-- The Chromium-like environment with multi-stream support disabled. -/
def env0 : Env := { browser := browser0, isMultiStreamSupportEnabled := false }

/-- The Chromium-like environment with multi-stream support enabled. -/
def env1 : Env := { browser := browser0, isMultiStreamSupportEnabled := true }

/-- A connection state with no transceivers: simulcast on, unified plan,
no low-fps screenshare, no configured desktop bitrate. -/
def stEmpty : PCState :=
  { transceivers := [], localTracks := [], addedStreams := [],
    isSimulcastOn := true, isSharingLowFpsScreen := false,
    usesUnifiedPlan := true, desktopBitrateOption := none }

/-- A camera video track captured at 720p. -/
def camTrack : JitsiLocalTrack :=
  { rtcId := 1, mediaType := "video", videoType := some "camera",
    track := { id := "t1", kind := "video" },
    originalStream := some { id := "s1" },
    streamId := "s1", muted := false, sourceName := none, height := 720,
    hasConference := false }

/-! ### Claim-specific fixtures -/

/-- A recvonly video transceiver with no sender track. -/
def trC10 : Transceiver :=
  { receiverTrack := { id := "r1", kind := "video" }, senderTrack := none,
    senderParameters := { encodings := [] }, direction := "recvonly",
    currentDirection := some "recvonly" }

/-- A state holding exactly the recvonly video transceiver. -/
def stC10 : PCState := { stEmpty with transceivers := [trC10] }

/-- A camera track with no original stream. -/
def ltC10 : JitsiLocalTrack := { camTrack with originalStream := none }

/-! ### The claims -/

/-- C4: the startup encoding set has exactly three layers with rids "1", "2",
"3"; on non-Firefox-family browsers layer "1" has scale 4.0 and the low
bitrate, layer "2" scale 2.0 and the standard bitrate, layer "3" scale 1.0
and the high bitrate, with the layer-"1"/layer-"3" scale and bitrate
assignments swapped on Firefox-family; and addTrack called as initiator on a
non-Firefox browser with simulcast enabled for a video track installs exactly
this 3-encoding set (all active) as the new transceiver's send encodings. -/
theorem C4_startup_encodings_addTrack (env : Env) (vb : VideoBitrates)
    (st : PCState) (lt : JitsiLocalTrack)
    (hff : env.browser.isFirefox = false)
    (hsim : st.isSimulcastOn = true)
    (hvid : lt.mediaType = MediaType.VIDEO) :
    localStreamEncodingsConfig false vb =
      [ { active := true, maxBitrate := some vb.low,
          rid := some SIM_LAYER_1_RID, scaleResolutionDownBy := some 4 },
        { active := true, maxBitrate := some vb.standard,
          rid := some SIM_LAYER_2_RID, scaleResolutionDownBy := some 2 },
        { active := true, maxBitrate := some vb.high,
          rid := some SIM_LAYER_3_RID, scaleResolutionDownBy := some 1 } ]
    ∧ localStreamEncodingsConfig true vb =
      [ { active := true, maxBitrate := some vb.high,
          rid := some SIM_LAYER_1_RID, scaleResolutionDownBy := some 1 },
        { active := true, maxBitrate := some vb.standard,
          rid := some SIM_LAYER_2_RID, scaleResolutionDownBy := some 2 },
        { active := true, maxBitrate := some vb.low,
          rid := some SIM_LAYER_3_RID, scaleResolutionDownBy := some 4 } ]
    ∧ addTrack env vb st lt true =
        .addTransceiver lt.track
          { direction := "sendrecv", streams := [lt.originalStream],
            sendEncodings := localStreamEncodingsConfig false vb } := by
  refine ⟨rfl, rfl, ?_⟩
  simp [addTrack, _getStreamEncodings, JitsiLocalTrack.isVideoTrack, hff, hsim,
    hvid, MediaType.VIDEO]

/-- Witness for C4: the concrete Chromium-like environment with the camera
track. -/
theorem C4_witness :
    localStreamEncodingsConfig false vb0 =
      [ { active := true, maxBitrate := some vb0.low,
          rid := some SIM_LAYER_1_RID, scaleResolutionDownBy := some 4 },
        { active := true, maxBitrate := some vb0.standard,
          rid := some SIM_LAYER_2_RID, scaleResolutionDownBy := some 2 },
        { active := true, maxBitrate := some vb0.high,
          rid := some SIM_LAYER_3_RID, scaleResolutionDownBy := some 1 } ]
    ∧ localStreamEncodingsConfig true vb0 =
      [ { active := true, maxBitrate := some vb0.high,
          rid := some SIM_LAYER_1_RID, scaleResolutionDownBy := some 1 },
        { active := true, maxBitrate := some vb0.standard,
          rid := some SIM_LAYER_2_RID, scaleResolutionDownBy := some 2 },
        { active := true, maxBitrate := some vb0.low,
          rid := some SIM_LAYER_3_RID, scaleResolutionDownBy := some 4 } ]
    ∧ addTrack env0 vb0 stEmpty camTrack true =
        .addTransceiver camTrack.track
          { direction := "sendrecv", streams := [camTrack.originalStream],
            sendEncodings := localStreamEncodingsConfig false vb0 } :=
  C4_startup_encodings_addTrack env0 vb0 stEmpty camTrack rfl rfl rfl

/-- C10: when addTrackUnmute finds a transceiver of the track's media kind
whose direction is recvonly but the track has no original stream, the
operation resolves and the whole connection state is left unchanged (no
stream added, no encodings applied, the local-track map untouched, the
transceiver not promoted). -/
theorem C10_addTrackUnmute_recvonly_no_stream (env : Env) (vb : VideoBitrates)
    (st : PCState) (lt : JitsiLocalTrack) (tr : Transceiver)
    (hfind : st.transceivers.find? (receiverKindPred lt.mediaType) = some tr)
    (hdir : tr.direction = MediaDirection.RECVONLY)
    (hstream : lt.originalStream = none) :
    addTrackUnmute env vb st lt = (.resolved (), st) := by
  simp [addTrackUnmute, hfind, hdir, hstream, MediaDirection.RECVONLY]

/-- Witness for C10: the concrete recvonly transceiver and the streamless
camera track. -/
theorem C10_witness : addTrackUnmute env0 vb0 stC10 ltC10 = (.resolved (), stC10) :=
  C10_addTrackUnmute_recvonly_no_stream env0 vb0 stC10 ltC10 trC10 rfl rfl rfl

/-- A video transceiver already sending (sendrecv, negotiated sendrecv). -/
def trC5busy : Transceiver :=
  { receiverTrack := { id := "rb", kind := "video" },
    senderTrack := some { id := "tb", kind := "video" },
    senderParameters := { encodings := [] }, direction := "sendrecv",
    currentDirection := some "sendrecv" }

/-- A placeholder video transceiver: recvonly with negotiated direction
inactive. -/
def trC5free : Transceiver :=
  { receiverTrack := { id := "rf", kind := "video" }, senderTrack := none,
    senderParameters := { encodings := [] }, direction := "recvonly",
    currentDirection := some "inactive" }

/-- A state with one busy and one placeholder video transceiver and one
already-added local video track. -/
def stC5 : PCState :=
  { stEmpty with
      transceivers := [trC5busy, trC5free],
      localTracks := [(7, { camTrack with rtcId := 7 })] }

/-- C5: replaceTrack(null, newTrack) adding an additional local source of a
media kind that already has local tracks (multi-stream mode) only ever
resolves with a transceiver of that kind whose direction is recvonly and
whose negotiated direction is inactive — never one that is already sendrecv —
and rejects with "replace track failed" when no such transceiver exists. -/
theorem C5_replaceTrack_new_source (env : Env) (st : PCState) (nt : JitsiLocalTrack)
    (hms : env.isMultiStreamSupportEnabled = true)
    (hcount : getLocalTracksCount st (some nt.mediaType) ≠ 0)
    (hconf : nt.hasConference = false) :
    (∀ t, replaceTrack env st none (some nt) = .resolved t →
        t.receiverTrack.kind = nt.mediaType
        ∧ t.direction = MediaDirection.RECVONLY
        ∧ t.currentDirection = some MediaDirection.INACTIVE)
    ∧ (st.transceivers.find? (newSourcePred (some nt.mediaType)) = none →
        replaceTrack env st none (some nt) = .rejected "replace track failed") := by
  have hc : (getLocalTracksCount st (some nt.mediaType) == 0) = false :=
    beq_eq_false_iff_ne.mpr hcount
  have hsel : replaceTrackSelect env st none (some nt) =
      .resolved (st.transceivers.find? (newSourcePred (some nt.mediaType))) := by
    simp [replaceTrackSelect, replaceTrackSelect.replaceTrackSelectFallback,
      replaceTrackMediaType, hms, hconf, hc]
  constructor
  · intro t ht
    rw [replaceTrack, hsel] at ht
    cases hfind : st.transceivers.find? (newSourcePred (some nt.mediaType)) with
    | none => rw [hfind] at ht; exact absurd ht (by simp)
    | some t0 =>
      rw [hfind] at ht
      simp only [OpResult.resolved.injEq] at ht
      subst ht
      have hp := List.find?_some hfind
      simp only [newSourcePred, Bool.and_eq_true, beq_iff_eq, Option.some.injEq] at hp
      exact ⟨hp.1.1, hp.1.2, hp.2⟩
  · intro hnone
    rw [replaceTrack, hsel, hnone]

/-- Witness for C5: in the two-transceiver state the placeholder, not the
busy transceiver, is selected for the additional camera source. -/
theorem C5_witness :
    replaceTrack env1 stC5 none (some camTrack) = .resolved trC5free
    ∧ trC5free.receiverTrack.kind = camTrack.mediaType
    ∧ trC5free.direction = MediaDirection.RECVONLY
    ∧ trC5free.currentDirection = some MediaDirection.INACTIVE := by
  have h := (C5_replaceTrack_new_source env1 stC5 camTrack rfl (by decide) rfl).1
    trC5free (by decide)
  exact ⟨by decide, h⟩

/-- C8: on a browser that does not munge SDP for simulcast,
insertUnifiedPlanSimulcastReceive applied to a description whose first video
section carries no rid and no simulcast attribute injects exactly the three
rid entries "1", "2", "3" in that order, all with direction "recv", and a
version-03 simulcast attribute advertising "recv" for those rids with the
legacy "rid=" prefix except on Firefox versions greater than 71. -/
theorem C8_insertSimulcastReceive (env : Env) (desc : SessionDesc) (idx : Nat) (m : MLine)
    (hmunge : env.browser.usesSdpMungingForSimulcast = false)
    (hidx : desc.media.findIdx? (fun ml => ml.type == "video") = some idx)
    (hget : desc.media.get? idx = some m)
    (hrids : m.rids = none) (hsim : m.simulcast = none) (hsim03 : m.simulcast_03 = none) :
    insertUnifiedPlanSimulcastReceive env desc =
      .resolved
        { type := desc.type,
          media := desc.media.set idx
            { m with
                rids := some [ { id := "1", direction := "recv" },
                               { id := "2", direction := "recv" },
                               { id := "3", direction := "recv" } ],
                simulcast_03 := some { value :=
                  if env.browser.isFirefox && decide (71 < env.browser.version)
                  then "recv 1;2;3" else "recv rid=1;2;3" } } } := by
  have hline : simulcastLineFor env.browser =
      (if env.browser.isFirefox && decide (71 < env.browser.version)
        then "recv 1;2;3" else "recv rid=1;2;3") := by
    unfold simulcastLineFor
    cases h : env.browser.isFirefox && decide (71 < env.browser.version) <;> rfl
  simp only [insertUnifiedPlanSimulcastReceive, hmunge, hidx, hget, hrids, hsim, hsim03,
    hline]
  simp [SIM_LAYER_1_RID, SIM_LAYER_2_RID, SIM_LAYER_3_RID]

/-- The bare video section of the C8 witness description. -/
def mC8 : MLine :=
  { type := "video", ssrcGroups := [], ssrcs := [],
    rids := none, simulcast := none, simulcast_03 := none }

/-- A description whose only section is a bare video section. -/
def descC8 : SessionDesc := { type := "offer", media := [mC8] }

/-- Witness for C8: the bare video description in the Chromium-like
environment. -/
theorem C8_witness :
    insertUnifiedPlanSimulcastReceive env0 descC8 =
      .resolved
        { type := descC8.type,
          media := descC8.media.set 0
            { mC8 with
                rids := some [ { id := "1", direction := "recv" },
                               { id := "2", direction := "recv" },
                               { id := "3", direction := "recv" } ],
                simulcast_03 := some { value :=
                  if env0.browser.isFirefox && decide (71 < env0.browser.version)
                  then "recv 1;2;3" else "recv rid=1;2;3" } } } :=
  C8_insertSimulcastReceive env0 descC8 0 mC8 rfl rfl rfl rfl rfl rfl

/-- A low-fps screenshare state with a configured desktop bitrate of 1 Mbps. -/
def stC7 : PCState :=
  { stEmpty with isSharingLowFpsScreen := true, desktopBitrateOption := some 1000000 }

/-- A desktop track whose original stream is its current stream (no presenter
overlay). -/
def dtC7 : JitsiLocalTrack := { camTrack with videoType := some "desktop" }

/-- A desktop track with a presenter overlay: the original stream differs from
the current stream. -/
def dtC7p : JitsiLocalTrack :=
  { dtC7 with originalStream := some { id := "composite" } }

/-- C7 counterexample: under low-fps screenshare on a non-WebKit browser with
no presenter overlay, a configured `videoQuality.desktopBitrate` of 1 Mbps is
used for every layer, so the result is not the default desktop-share rate the
claim requires. -/
theorem C7_counterexample :
    stC7.isSharingLowFpsScreen = true
    ∧ env0.browser.isWebKitBased = false
    ∧ presenterEnabled dtC7 = false
    ∧ calculateEncodingsBitrates env0 vb0 stC7 dtC7 =
        [some 1000000, some 1000000, some 1000000]
    ∧ calculateEncodingsBitrates env0 vb0 stC7 dtC7 ≠
        List.replicate 3 (some DESKTOP_SHARE_RATE) := by decide

/-- C7 (amended): under low-fps screenshare on a non-WebKit browser,
calculateEncodingsBitrates returns three identical entries — the
high-definition flat rate when the presenter overlay is active, and otherwise
the configured desktop bitrate, falling back to the default desktop-share
rate when none (or 0) is configured. -/
theorem C7_bitrates_lowfps_amended (env : Env) (vb : VideoBitrates) (st : PCState)
    (lt : JitsiLocalTrack)
    (hfps : st.isSharingLowFpsScreen = true)
    (hwk : env.browser.isWebKitBased = false) :
    (presenterEnabled lt = true →
      calculateEncodingsBitrates env vb st lt = List.replicate 3 (some HD_BITRATE))
    ∧ (presenterEnabled lt = false →
      calculateEncodingsBitrates env vb st lt =
        List.replicate 3 (some (desktopShareBitrate st))) := by
  constructor <;> intro hp <;>
    cases hf : env.browser.isFirefox <;>
      simp [calculateEncodingsBitrates, localStreamEncodingsConfig, hfps, hwk, hp, hf,
        List.replicate]

/-- Witness for C7: with the presenter overlay the flat high-definition rate,
without it the configured 1 Mbps rate. -/
theorem C7_witness :
    calculateEncodingsBitrates env0 vb0 stC7 dtC7p = List.replicate 3 (some HD_BITRATE)
    ∧ calculateEncodingsBitrates env0 vb0 stC7 dtC7 =
        List.replicate 3 (some (desktopShareBitrate stC7)) :=
  ⟨(C7_bitrates_lowfps_amended env0 vb0 stC7 dtC7p rfl rfl).1 rfl,
   (C7_bitrates_lowfps_amended env0 vb0 stC7 dtC7 rfl rfl).2 rfl⟩

/-- C2: for a camera-sourced video track a layer is active iff its frame
height (capture height over the layer's scale factor) is at most the
requested height, except that the layer with the lowest-resolution scale
factor 4.0 is forced active whenever the requested height is positive; in
particular at capture height 720, scale factors [4.0, 2.0, 1.0] and request
180 the flags are [true, false, false]. -/
theorem C2_activeState_camera (env : Env) (vb : VideoBitrates) (st : PCState)
    (lt : JitsiLocalTrack) (r : Nat)
    (hcam : lt.videoType = some VideoType.CAMERA) :
    calculateEncodingsActiveState env vb st lt r =
      (localStreamEncodingsConfig env.browser.isFirefox vb).map (fun e =>
        if 0 < r ∧ e.scaleResolutionDownBy = some LD_SCALE_FACTOR then true
        else decide ((lt.height : ℚ) / (e.scaleResolutionDownBy.getD 1) ≤ (r : ℚ)))
    ∧ calculateEncodingsActiveState env0 vb0 stEmpty camTrack 180 =
        [true, false, false] := by
  constructor
  · cases hf : env.browser.isFirefox <;>
      by_cases hr : 0 < r <;>
        simp +decide [calculateEncodingsActiveState, localStreamEncodingsConfig, hf,
          hcam, hr, LD_SCALE_FACTOR, HD_SCALE_FACTOR, VideoType.CAMERA,
          VideoType.DESKTOP, List.enum, List.enumFrom]
  · simp only [calculateEncodingsActiveState, localStreamEncodingsConfig, env0,
      browser0, stEmpty, camTrack, vb0, VideoType.CAMERA, VideoType.DESKTOP,
      LD_SCALE_FACTOR, HD_SCALE_FACTOR, List.map, List.enum, List.get?]
    norm_num

/-- Witness for C2: the camera track at capture height 720 with request 180
in the Chromium-like environment. -/
theorem C2_witness :
    calculateEncodingsActiveState env0 vb0 stEmpty camTrack 180 =
      (localStreamEncodingsConfig env0.browser.isFirefox vb0).map (fun e =>
        if 0 < 180 ∧ e.scaleResolutionDownBy = some LD_SCALE_FACTOR then true
        else decide ((camTrack.height : ℚ) / (e.scaleResolutionDownBy.getD 1) ≤
          ((180 : Nat) : ℚ)))
    ∧ calculateEncodingsActiveState env0 vb0 stEmpty camTrack 180 =
        [true, false, false] :=
  C2_activeState_camera env0 vb0 stEmpty camTrack 180 rfl

/-- A recvonly video transceiver, first in the C6 state. -/
def trC6a : Transceiver :=
  { receiverTrack := { id := "ra", kind := "video" }, senderTrack := none,
    senderParameters := { encodings := [] }, direction := "recvonly",
    currentDirection := none }

/-- A sendrecv video transceiver, second in the C6 state (the first
non-recvonly video transceiver). -/
def trC6b : Transceiver :=
  { receiverTrack := { id := "rb", kind := "video" }, senderTrack := none,
    senderParameters := { encodings := [] }, direction := "sendrecv",
    currentDirection := some "sendrecv" }

/-- The C6 counterexample state: the recvonly transceiver precedes the
sendrecv one. -/
def stC6 : PCState := { stEmpty with transceivers := [trC6a, trC6b] }

/-- A camera track whose structured source name carries index 0. -/
def ntC6 : JitsiLocalTrack := { camTrack with sourceName := some "a-v0" }

/-- C6 counterexample: for the structured source name "a-v0" (index 0) the
claim demands the 0th non-recvonly video transceiver (the sendrecv one), but
the code treats the parsed index 0 as falsy and falls back to the first
transceiver of the media kind, which here is the recvonly one. -/
theorem C6_counterexample :
    replaceTrack env0 stC6 none (some ntC6) = .resolved trC6a
    ∧ trC6a.direction = MediaDirection.RECVONLY
    ∧ (stC6.transceivers.filter (fun t =>
        kindOnlyPred (some ntC6.mediaType) t
          && !(t.direction == MediaDirection.RECVONLY))).get? 0 = some trC6b
    ∧ trC6a ≠ trC6b := by decide

/-- C6 (amended): in the mute/unmute branch of replaceTrack, a structured
source name is split at "-", the second component is stripped of its leading
character and parsed; when the parsed index is nonzero the index-th
transceiver among the non-recvonly transceivers of the track's media kind is
selected (rejecting when out of range), while a zero or unparseable index, or
a missing source name, selects the first transceiver of the media kind. -/
theorem C6_replaceTrack_source_name_amended (env : Env) (st : PCState)
    (nt : JitsiLocalTrack) (component : String) (n : Nat)
    (hnls : env.isMultiStreamSupportEnabled = false
      ∨ getLocalTracksCount st (some nt.mediaType) = 0
      ∨ nt.hasConference = true)
    (hsn : truthyStr nt.sourceName = true)
    (hcomp : (jsSplit '-' (nt.sourceName.getD "")).get? 1 = some component)
    (hparse : parseNatChars (component.data.drop 1) = some n) :
    (n ≠ 0 →
      replaceTrack env st none (some nt) =
        (match (st.transceivers.filter (fun t =>
            kindOnlyPred (some nt.mediaType) t
              && !(t.direction == MediaDirection.RECVONLY))).get? n with
         | some t => .resolved t
         | none => .rejected "replace track failed"))
    ∧ (n = 0 →
      replaceTrack env st none (some nt) =
        (match st.transceivers.find? (kindOnlyPred (some nt.mediaType)) with
         | some t => .resolved t
         | none => .rejected "replace track failed")) := by
  have hb : (env.isMultiStreamSupportEnabled
      && !(getLocalTracksCount st (some nt.mediaType) == 0)
      && Option.isNone (none : Option JitsiLocalTrack)
      && Option.isSome (some nt)
      && !nt.hasConference) = false := by
    rcases hnls with h | h | h <;> simp [h]
  have hcs : consultedSourceName none (some nt) = nt.sourceName := by
    simp [consultedSourceName, hsn]
  have hsel : replaceTrackSelect env st none (some nt) =
      (if !(n == 0) then
        .resolved ((st.transceivers.filter (fun t =>
            kindOnlyPred (some nt.mediaType) t
              && !(t.direction == MediaDirection.RECVONLY))).get? n)
      else .resolved (st.transceivers.find? (kindOnlyPred (some nt.mediaType)))) := by
    rw [replaceTrackSelect]
    rw [replaceTrackSelect.replaceTrackSelectFallback]
    simp only [replaceTrackMediaType, hb, Bool.false_eq_true, if_false, hcs, hsn,
      if_true, hcomp, hparse]
  constructor
  · intro hn
    have hnb : (n == 0) = false := beq_eq_false_iff_ne.mpr hn
    rw [replaceTrack, hsel, hnb]
    cases (st.transceivers.filter (fun t =>
        kindOnlyPred (some nt.mediaType) t
          && !(t.direction == MediaDirection.RECVONLY))).get? n <;> rfl
  · intro hn
    subst hn
    rw [replaceTrack, hsel]
    cases st.transceivers.find? (kindOnlyPred (some nt.mediaType)) <;> rfl

/-- A third video transceiver for the C6 witness, sendrecv. -/
def trC6c : Transceiver :=
  { receiverTrack := { id := "rc", kind := "video" }, senderTrack := none,
    senderParameters := { encodings := [] }, direction := "sendrecv",
    currentDirection := some "sendrecv" }

/-- The C6 witness state: recvonly, then two sendrecv video transceivers. -/
def stC6w : PCState := { stEmpty with transceivers := [trC6a, trC6b, trC6c] }

/-- A camera track whose structured source name carries index 1. -/
def ntC6w : JitsiLocalTrack := { camTrack with sourceName := some "a-v1" }

/-- Witness for C6: source name "a-v1" picks the transceiver at position 1 of
the non-recvonly video transceivers. -/
theorem C6_witness :
    replaceTrack env0 stC6w none (some ntC6w) =
      (match (stC6w.transceivers.filter (fun t =>
          kindOnlyPred (some ntC6w.mediaType) t
            && !(t.direction == MediaDirection.RECVONLY))).get? 1 with
       | some t => OpResult.resolved t
       | none => OpResult.rejected "replace track failed") :=
  (C6_replaceTrack_source_name_amended env0 stC6w ntC6w "v1" 1
    (Or.inl rfl) rfl rfl rfl).1 (by decide)

/-- Well-formedness of the source name consulted by replaceTrack: when a
truthy source name is consulted it contains at least one "-", so the index
parse does not fault.  (The spec itself flags the parse as unvalidated.) -/
def sourceNameSafe (oldTrack newTrack : Option JitsiLocalTrack) : Prop :=
  truthyStr (consultedSourceName oldTrack newTrack) = true →
    ((jsSplit '-' ((consultedSourceName oldTrack newTrack).getD "")).get? 1).isSome = true

/-- The selection phase of replaceTrack never throws when the consulted
source name is well formed. -/
theorem replaceTrackSelect_not_thrown (env : Env) (st : PCState)
    (oldTrack newTrack : Option JitsiLocalTrack)
    (hsafe : sourceNameSafe oldTrack newTrack) (msg : String) :
    replaceTrackSelect env st oldTrack newTrack ≠ .thrown msg := by
  have hfb : ∀ mt b,
      replaceTrackSelect.replaceTrackSelectFallback st oldTrack newTrack mt b ≠
        .thrown msg := by
    intro mt b
    rw [replaceTrackSelect.replaceTrackSelectFallback]
    by_cases hb : b = true
    · simp [hb]
    · simp only [Bool.not_eq_true] at hb
      subst hb
      simp only [Bool.false_eq_true, if_false]
      by_cases hsn : truthyStr (consultedSourceName oldTrack newTrack) = true
      · have hsome := hsafe hsn
        simp only [hsn, if_true]
        cases hget : (jsSplit '-' ((consultedSourceName oldTrack newTrack).getD "")).get? 1 with
        | none => rw [hget] at hsome; simp at hsome
        | some component =>
          cases hp : parseNatChars component.data.tail with
          | none => simp [hp]
          | some n => by_cases hn : n = 0 <;> simp [hp, hn]
      · simp only [Bool.not_eq_true] at hsn
        simp [hsn]
  rw [replaceTrackSelect.eq_def]
  cases oldTrack with
  | none => exact hfb _ _
  | some ot =>
    by_cases hm : ot.muted = true
    · simp only [hm, Bool.not_true, Bool.false_eq_true, if_false]
      exact hfb _ _
    · simp only [Bool.not_eq_true] at hm
      simp [hm]

/-- C3 counterexample: setEncodings on a state holding no transceiver whose
sender carries a track of the wanted kind throws synchronously instead of
rejecting. -/
theorem C3_counterexample :
    stEmpty.transceivers.find? (senderKindPred camTrack.mediaType) = none
    ∧ (setEncodings env0 vb0 stEmpty camTrack).1 =
        .thrown "TypeError: Cannot read properties of undefined"
    ∧ (setEncodings env0 vb0 stEmpty camTrack).1.isThrown = true := by decide

/-- C3 (amended): addTrackUnmute and removeTrackMute surface a failed
transceiver lookup as a rejected promise with a descriptive message;
replaceTrack never throws synchronously as long as any consulted source name
is well formed (and rejects on lookup failure); setEncodings, by contrast,
throws a synchronous TypeError when its lookup fails. -/
theorem C3_lookup_failure_amended (env : Env) (vb : VideoBitrates) (st : PCState)
    (lt : JitsiLocalTrack) (oldTrack newTrack : Option JitsiLocalTrack)
    (hsafe : sourceNameSafe oldTrack newTrack) :
    (st.transceivers.find? (receiverKindPred lt.mediaType) = none →
      (addTrackUnmute env vb st lt).1 =
        .rejected ("RTCRtpTransceiver for " ++ lt.mediaType ++ " not found"))
    ∧ (st.transceivers.find? (senderTrackIdPred lt.track.id) = none →
      (removeTrackMute st lt).1 =
        .rejected ("RTCRtpTransceiver for " ++ lt.mediaType ++ " not found"))
    ∧ (replaceTrack env st oldTrack newTrack).isThrown = false
    ∧ (st.transceivers.find? (senderKindPred lt.mediaType) = none →
      (setEncodings env vb st lt).1 =
        .thrown "TypeError: Cannot read properties of undefined") := by
  refine ⟨?_, ?_, ?_, ?_⟩
  · intro h; simp [addTrackUnmute, h]
  · intro h; simp [removeTrackMute, h]
  · rw [replaceTrack]
    cases hsel : replaceTrackSelect env st oldTrack newTrack with
    | thrown msg => exact absurd hsel (replaceTrackSelect_not_thrown env st _ _ hsafe msg)
    | rejected msg => rfl
    | resolved t => cases t <;> rfl
  · intro h; simp [setEncodings, h]

/-- Witness for C3: the empty transceiver collection makes every lookup fail;
the first three operations reject or stay throw-free while setEncodings
throws. -/
theorem C3_witness :
    (addTrackUnmute env0 vb0 stEmpty camTrack).1 =
      .rejected ("RTCRtpTransceiver for " ++ camTrack.mediaType ++ " not found")
    ∧ (removeTrackMute stEmpty camTrack).1 =
      .rejected ("RTCRtpTransceiver for " ++ camTrack.mediaType ++ " not found")
    ∧ (replaceTrack env0 stEmpty none (some camTrack)).isThrown = false
    ∧ (setEncodings env0 vb0 stEmpty camTrack).1 =
      .thrown "TypeError: Cannot read properties of undefined" := by
  have h := C3_lookup_failure_amended env0 vb0 stEmpty camTrack none (some camTrack)
    (by intro hx; exact absurd hx (by decide))
  exact ⟨h.1 rfl, h.2.1 rfl, h.2.2.1, h.2.2.2 rfl⟩

/-! ### Support lemmas for the ssrc reordering claims -/

/-- Membership in the dedup accumulator loop: an element survives iff it is
in the remaining input and not yet seen. -/
theorem mem_insertionDedupAux (seen l : List String) (x : String) :
    x ∈ insertionDedupAux seen l ↔ x ∈ l ∧ x ∉ seen := by
  induction l generalizing seen with
  | nil => simp [insertionDedupAux]
  | cons a as ih =>
    by_cases ha : a ∈ seen
    · simp only [insertionDedupAux, ha, if_true, ih, List.mem_cons]
      constructor
      · rintro ⟨hx, hnx⟩
        exact ⟨Or.inr hx, hnx⟩
      · rintro ⟨hx | hx, hnx⟩
        · exact absurd (hx ▸ ha) hnx
        · exact ⟨hx, hnx⟩
    · simp only [insertionDedupAux, ha, if_false, List.mem_cons, ih,
        List.mem_append, List.mem_singleton]
      constructor
      · rintro (rfl | ⟨hx, hnx⟩)
        · exact ⟨Or.inl rfl, ha⟩
        · exact ⟨Or.inr hx, fun hs => hnx (Or.inl hs)⟩
      · rintro ⟨rfl | hx, hnx⟩
        · exact Or.inl rfl
        · by_cases hxa : x = a
          · exact Or.inl hxa
          · exact Or.inr ⟨hx, fun hs =>
              hs.elim hnx (fun h2 => h2.elim hxa (fun h3 => List.not_mem_nil x h3))⟩

/-- Membership in the insertion-ordered deduplication. -/
theorem mem_insertionDedup (l : List String) (x : String) :
    x ∈ insertionDedup l ↔ x ∈ l := by
  rw [insertionDedup, mem_insertionDedupAux]
  simp

/-- The dedup accumulator loop produces a duplicate-free list. -/
theorem nodup_insertionDedupAux (seen l : List String) :
    (insertionDedupAux seen l).Nodup := by
  induction l generalizing seen with
  | nil => simp [insertionDedupAux]
  | cons a as ih =>
    by_cases ha : a ∈ seen
    · simp only [insertionDedupAux, ha, if_true]
      exact ih _
    · simp only [insertionDedupAux, ha, if_false]
      rw [List.nodup_cons]
      refine ⟨?_, ih _⟩
      intro hmem
      rw [mem_insertionDedupAux] at hmem
      exact hmem.2 (List.mem_append.mpr (Or.inr (List.mem_singleton.mpr rfl)))

/-- The insertion-ordered deduplication is duplicate-free. -/
theorem nodup_insertionDedup (l : List String) : (insertionDedup l).Nodup :=
  nodup_insertionDedupAux [] l

/-- Filtering with the disjunction of two mutually exclusive predicates is a
permutation of the concatenation of the two filters. -/
theorem filter_or_perm {α : Type} (l : List α) (p q : α → Bool)
    (h : ∀ a, p a = true → q a = false) :
    List.Perm (l.filter (fun a => p a || q a)) (l.filter p ++ l.filter q) := by
  induction l with
  | nil => simp
  | cons a as ih =>
    by_cases hp : p a = true
    · have hq := h a hp
      simp only [List.filter_cons, hp, hq, Bool.true_or, if_true]
      exact (ih.cons a).trans (by simp)
    · have hp1 : p a = false := by simpa using hp
      by_cases hq : q a = true
      · simp only [List.filter_cons, hp1, hq, Bool.false_or, if_true, if_false]
        exact (ih.cons a).trans List.perm_middle.symm
      · have hq1 : q a = false := by simpa using hq
        simp only [List.filter_cons, hp1, hq1, Bool.false_or, if_false]
        exact ih

/-- Concatenating, over a duplicate-free key list, the input entries with
each key is a permutation of the input filtered to those keys. -/
theorem flatMap_filter_perm {α : Type} (inp : List α) (k : α → String) :
    ∀ L : List String, L.Nodup →
      List.Perm (L.flatMap (fun s => inp.filter (fun e => k e == s)))
        (inp.filter (fun e => decide (k e ∈ L))) := by
  intro L
  induction L with
  | nil => simp
  | cons s L1 ih =>
    intro hnd
    rw [List.nodup_cons] at hnd
    rw [List.flatMap_cons]
    have hsplit := filter_or_perm inp (fun e => k e == s)
      (fun e => decide (k e ∈ L1))
      (by
        intro a hpa
        simp only [beq_iff_eq] at hpa
        simp [hpa, hnd.1])
    have hcongr : inp.filter (fun e => decide (k e ∈ s :: L1)) =
        inp.filter (fun e => k e == s || decide (k e ∈ L1)) := by
      apply List.filter_congr
      intro a _
      by_cases h1 : k a = s
      · simp [h1, List.mem_cons]
      · by_cases h2 : k a ∈ L1 <;> simp [h1, h2, List.mem_cons]
    rw [hcongr]
    exact ((ih hnd.2).append_left _).trans hsplit.symm

/-- A list of lists each of which is empty concatenates to the empty list. -/
theorem flatMap_eq_nil_of_forall {α : Type} (L : List String) (f : String → List α)
    (h : ∀ s ∈ L, f s = []) : L.flatMap f = [] := by
  induction L with
  | nil => rfl
  | cons s L1 ih =>
    rw [List.flatMap_cons, h s (List.mem_cons_self s L1), List.nil_append]
    exact ih (fun t ht => h t (List.mem_cons_of_mem s ht))

/-- Filtering distributes over a keyed concatenation. -/
theorem filter_flatMap {α β : Type} (L : List β) (f : β → List α) (p : α → Bool) :
    (L.flatMap f).filter p = L.flatMap (fun x => (f x).filter p) := by
  induction L with
  | nil => rfl
  | cons b L1 ih =>
    rw [List.flatMap_cons, List.flatMap_cons, List.filter_append, ih]

/-- The entries of the input with a single key, filtered by a different key,
vanish. -/
theorem filter_filter_ne {α : Type} (inp : List α) (k : α → String)
    (t s : String) (hts : t ≠ s) :
    (inp.filter (fun e => k e == t)).filter (fun e => k e == s) = [] := by
  rw [List.filter_filter]
  apply List.filter_eq_nil_iff.mpr
  intro a _
  cases h : k a == t <;> simp [h]
  intro hks
  exact absurd ((beq_iff_eq.mp h) ▸ hks : t = s) hts

/-- The entries of the input with a single key, filtered again by that key,
are unchanged. -/
theorem filter_filter_self {α : Type} (inp : List α) (k : α → String) (t : String) :
    (inp.filter (fun e => k e == t)).filter (fun e => k e == t) =
      inp.filter (fun e => k e == t) := by
  rw [List.filter_filter]
  apply List.filter_congr
  intro a _
  cases h : k a == t <;> simp [h]

/-- Filtering the keyed concatenation by one of the (duplicate-free) keys
recovers exactly the input entries with that key. -/
theorem flatMap_filter_self {α : Type} (inp : List α) (k : α → String) :
    ∀ L : List String, L.Nodup → ∀ s ∈ L,
      (L.flatMap (fun t => inp.filter (fun e => k e == t))).filter
          (fun e => k e == s) =
        inp.filter (fun e => k e == s) := by
  intro L
  induction L with
  | nil => intro _ s hs; cases hs
  | cons t L1 ih =>
    intro hnd s hs
    rw [List.nodup_cons] at hnd
    rw [List.flatMap_cons, List.filter_append]
    by_cases hts : t = s
    · subst hts
      have h2 : (L1.flatMap (fun u => inp.filter (fun e => k e == u))).filter
          (fun e => k e == t) = [] := by
        rw [filter_flatMap]
        apply flatMap_eq_nil_of_forall
        intro u hu
        exact filter_filter_ne inp k u t (fun h => hnd.1 (h ▸ hu))
      rw [filter_filter_self, h2, List.append_nil]
    · have hsL1 : s ∈ L1 := by
        rcases List.mem_cons.mp hs with h | h
        · exact absurd h.symm hts
        · exact h
      rw [filter_filter_ne inp k t s hts, List.nil_append]
      exact ih hnd.2 s hsL1

/-- Filtering the reordered ssrc list by a collected id recovers exactly the
input entries with that id. -/
theorem reorderSsrcs_filter (groups : List SsrcGroup) (inp : List SsrcEntry)
    (s : String) (hs : s ∈ collectGroupSsrcs groups) :
    (reorderSsrcs groups inp).filter (fun e => Nat.repr e.id == s) =
      inp.filter (fun e => Nat.repr e.id == s) := by
  rw [reorderSsrcs]
  exact flatMap_filter_self inp (fun e => Nat.repr e.id) (collectGroupSsrcs groups)
    (nodup_insertionDedup _) s hs

/-- Congruence of keyed concatenation over the members of the key list. -/
theorem flatMap_congr_mem {α β : Type} (l : List β) (f g : β → List α)
    (h : ∀ b ∈ l, f b = g b) : l.flatMap f = l.flatMap g := by
  induction l with
  | nil => rfl
  | cons b l1 ih =>
    rw [List.flatMap_cons, List.flatMap_cons, h b (List.mem_cons_self b l1),
      ih (fun x hx => h x (List.mem_cons_of_mem b hx))]

/-- The reordering pass is idempotent on the ssrc list of a section. -/
theorem reorderSsrcs_idem (groups : List SsrcGroup) (inp : List SsrcEntry) :
    reorderSsrcs groups (reorderSsrcs groups inp) = reorderSsrcs groups inp := by
  conv_lhs => rw [reorderSsrcs]
  rw [flatMap_congr_mem (collectGroupSsrcs groups)
    (fun s => (reorderSsrcs groups inp).filter (fun e => Nat.repr e.id == s))
    (fun s => inp.filter (fun e => Nat.repr e.id == s))
    (fun s hs => reorderSsrcs_filter groups inp s hs)]
  rfl

/-- The per-section pass of the ssrc normalization is idempotent. -/
theorem ensureMLine_idem (m : MLine) : ensureMLine (ensureMLine m) = ensureMLine m := by
  by_cases h1 : (m.type == "audio") = true
  · simp [ensureMLine, h1]
  · by_cases h2 : m.ssrcGroups.isEmpty = true
    · simp [ensureMLine, h1, h2]
    · simp [ensureMLine, h1, h2, reorderSsrcs_idem]

/-- C9: ensureCorrectOrderOfSsrcs is idempotent — applying it twice to any
session description yields the same result as applying it once. -/
theorem C9_normalizeSsrcOrder_idempotent (d : SessionDesc) :
    ensureCorrectOrderOfSsrcs (ensureCorrectOrderOfSsrcs d) =
      ensureCorrectOrderOfSsrcs d := by
  simp only [ensureCorrectOrderOfSsrcs, List.map_map]
  congr 1
  apply List.map_congr_left
  intro m _
  exact ensureMLine_idem m

/-- A video section whose ssrc list holds an entry (id 2) that no group
references, next to the referenced entry (id 1). -/
def mC1 : MLine :=
  { type := "video",
    ssrcGroups := [ { semantics := "FID", ssrcs := "1" } ],
    ssrcs := [ { id := 2, attrName := "cname", value := none },
               { id := 1, attrName := "cname", value := none } ],
    rids := none, simulcast := none, simulcast_03 := none }

/-- A description holding only the section with the unreferenced ssrc entry. -/
def descC1 : SessionDesc := { type := "offer", media := [mC1] }

/-- C1 counterexample: the section's ssrc entry with id 2 is referenced by no
ssrc-group, so ensureCorrectOrderOfSsrcs drops it — the output ssrc list is
not the same multiset as the input's. -/
theorem C1_counterexample :
    (ensureCorrectOrderOfSsrcs descC1).media.map MLine.ssrcs =
      [[ { id := 1, attrName := "cname", value := none } ]]
    ∧ descC1.media.map MLine.ssrcs =
      [[ { id := 2, attrName := "cname", value := none },
         { id := 1, attrName := "cname", value := none } ]]
    ∧ ¬ ((⟦[ ({ id := 1, attrName := "cname", value := none } : SsrcEntry) ]⟧ : Multiset SsrcEntry) =
         ⟦[ { id := 2, attrName := "cname", value := none },
            { id := 1, attrName := "cname", value := none } ]⟧) := by decide

/-- C1 (amended): ensureCorrectOrderOfSsrcs keeps the description's type and
number of sections and rewrites each section independently; audio sections
and sections without ssrc-groups pass through unchanged; any other section's
rebuilt ssrc list consists, as a multiset, of exactly the input entries whose
printed id is referenced by some group (so the full input multiset exactly
when every entry is referenced), arranged so that the entries of each
referenced id stand contiguously, blocks ordered by the id's first appearance
across the groups. -/
theorem C1_normalizeSsrcOrder_amended (d : SessionDesc) (i : Nat) (m : MLine)
    (hget : d.media.get? i = some m) :
    (ensureCorrectOrderOfSsrcs d).type = d.type
    ∧ (ensureCorrectOrderOfSsrcs d).media.length = d.media.length
    ∧ (ensureCorrectOrderOfSsrcs d).media.get? i = some (ensureMLine m)
    ∧ (m.type = "audio" ∨ m.ssrcGroups = [] → ensureMLine m = m)
    ∧ (m.type ≠ "audio" → m.ssrcGroups ≠ [] →
        (((ensureMLine m).ssrcs : Multiset SsrcEntry) =
            ↑(m.ssrcs.filter (fun e => decide (Nat.repr e.id ∈ groupRefs m.ssrcGroups)))
          ∧ (ensureMLine m).ssrcs =
              (collectGroupSsrcs m.ssrcGroups).flatMap
                (fun s => (ensureMLine m).ssrcs.filter
                  (fun e => Nat.repr e.id == s)))) := by
  refine ⟨rfl, by simp [ensureCorrectOrderOfSsrcs], ?_, ?_, ?_⟩
  · rw [ensureCorrectOrderOfSsrcs]
    simp only [List.get?_eq_getElem?] at hget ⊢
    simp [List.getElem?_map, hget]
  · rintro (h | h)
    · rw [ensureMLine, if_pos (by simp [h])]
    · by_cases ha : (m.type == "audio") = true
      · rw [ensureMLine, if_pos ha]
      · rw [ensureMLine, if_neg ha, if_pos (by simp [h])]
  · intro h1 h2
    have he : ensureMLine m = { m with ssrcs := reorderSsrcs m.ssrcGroups m.ssrcs } := by
      rw [ensureMLine, if_neg (by simp [h1]), if_neg (by simp [h2])]
    constructor
    · rw [he]
      show (↑(reorderSsrcs m.ssrcGroups m.ssrcs) : Multiset SsrcEntry) = _
      have hfc : m.ssrcs.filter
            (fun e => decide (Nat.repr e.id ∈ collectGroupSsrcs m.ssrcGroups)) =
          m.ssrcs.filter (fun e => decide (Nat.repr e.id ∈ groupRefs m.ssrcGroups)) := by
        apply List.filter_congr
        intro a _
        by_cases hmem : Nat.repr a.id ∈ groupRefs m.ssrcGroups
        · have hc : Nat.repr a.id ∈ collectGroupSsrcs m.ssrcGroups := by
            rw [collectGroupSsrcs, mem_insertionDedup]
            exact hmem
          simp [hmem, hc]
        · have hc : Nat.repr a.id ∉ collectGroupSsrcs m.ssrcGroups := by
            rw [collectGroupSsrcs, mem_insertionDedup]
            exact hmem
          simp [hmem, hc]
      rw [← hfc, reorderSsrcs]
      exact Multiset.coe_eq_coe.mpr
        (flatMap_filter_perm m.ssrcs (fun e => Nat.repr e.id)
          (collectGroupSsrcs m.ssrcGroups) (nodup_insertionDedup _))
    · rw [he]
      show reorderSsrcs m.ssrcGroups m.ssrcs =
        (collectGroupSsrcs m.ssrcGroups).flatMap
          (fun s => (reorderSsrcs m.ssrcGroups m.ssrcs).filter
            (fun e => Nat.repr e.id == s))
      rw [flatMap_congr_mem (collectGroupSsrcs m.ssrcGroups)
        (fun s => (reorderSsrcs m.ssrcGroups m.ssrcs).filter
          (fun e => Nat.repr e.id == s))
        (fun s => m.ssrcs.filter (fun e => Nat.repr e.id == s))
        (fun s hs => reorderSsrcs_filter m.ssrcGroups m.ssrcs s hs)]
      rfl

/-- Witness for C1: the concrete description with the unreferenced id-2
entry, all side conditions discharged. -/
theorem C1_witness :
    (ensureCorrectOrderOfSsrcs descC1).type = descC1.type
    ∧ (ensureCorrectOrderOfSsrcs descC1).media.length = descC1.media.length
    ∧ (ensureCorrectOrderOfSsrcs descC1).media.get? 0 = some (ensureMLine mC1)
    ∧ ((ensureMLine mC1).ssrcs : Multiset SsrcEntry) =
        ↑(mC1.ssrcs.filter (fun e => decide (Nat.repr e.id ∈ groupRefs mC1.ssrcGroups)))
    ∧ (ensureMLine mC1).ssrcs =
        (collectGroupSsrcs mC1.ssrcGroups).flatMap
          (fun s => (ensureMLine mC1).ssrcs.filter (fun e => Nat.repr e.id == s)) := by
  have h := C1_normalizeSsrcOrder_amended descC1 0 mC1 rfl
  have h5 := h.2.2.2.2 (by decide) (by decide)
  exact ⟨h.1, h.2.1, h.2.2.1, h5.1, h5.2⟩
